import Mathlib

/-!
# WinPR build-configuration headers of the Android client

The repository ships two generated C headers, one per ABI directory under
`app/src/main/jniLibs`:

* `arm64-v8a/include/winpr3/winpr/build-config.h`
* `armeabi-v7a/include/winpr3/winpr/buildflags.h`

Both consist of an include guard and object-like `#define`s whose replacement
text is a string literal.  The embedding keeps the text of the two files line
by line and gives the preprocessor's reading of it: every line is classified as
a directive, the directives are run from an empty macro environment (the first
inclusion of the header), and a macro's value is the content of the string
literal that is its replacement text.  Every statement below is about the macro
environment computed from the text in this way.
-/

namespace Winpr

/-! ## The two headers, as they are in the repository -/

/-- Location of `build-config.h` in the repository. -/
def build_config_h_path : String :=
  "app/src/main/jniLibs/arm64-v8a/include/winpr3/winpr/build-config.h"

/-- Location of `buildflags.h` in the repository. -/
def buildflags_h_path : String :=
  "app/src/main/jniLibs/armeabi-v7a/include/winpr3/winpr/buildflags.h"

/-- Lines of `arm64-v8a/include/winpr3/winpr/build-config.h`, in file order. -/
def build_config_h : List String := [
  "#ifndef WINPR_BUILD_CONFIG_H",
  "#define WINPR_BUILD_CONFIG_H",
  "",
  "#define WINPR_DATA_PATH \"\"",
  "#define WINPR_KEYMAP_PATH \"\"",
  "#define WINPR_PLUGIN_PATH \"\"",
  "",
  "#define WINPR_INSTALL_PREFIX \"/mnt/d/wyxj/project/mstsc/FreeRDP/client/Android/Studio/freeRDPCore/src/main/jniLibs/arm64-v8a\"",
  "#define WINPR_INSTALL_SYSCONFDIR \"/mnt/d/wyxj/project/mstsc/FreeRDP/client/Android/Studio/freeRDPCore/src/main/jniLibs/arm64-v8a/etc\"",
  "",
  "#define WINPR_LIBRARY_PATH \"\"",
  "",
  "#define WINPR_ADDIN_PATH \"\"",
  "",
  "#define WINPR_SHARED_LIBRARY_SUFFIX \".so\"",
  "#define WINPR_SHARED_LIBRARY_PREFIX  \"lib\"",
  "",
  "#define WINPR_VENDOR_STRING \"FreeRDP\"",
  "#define WINPR_PRODUCT_STRING \"FreeRDP\"",
  "",
  "#define WINPR_PROXY_PLUGINDIR \"\"",
  "",
  "#endif /* WINPR_BUILD_CONFIG_H */",
  ""
]

/-- Lines of `armeabi-v7a/include/winpr3/winpr/buildflags.h`, in file order. -/
def buildflags_h : List String := [
  "#ifndef WINPR_BUILD_FLAGS_H",
  "#define WINPR_BUILD_FLAGS_H",
  "",
  "#define WINPR_CFLAGS \"-g -DANDROID -fdata-sections -ffunction-sections -funwind-tables -fstack-protector-strong -no-canonical-prefixes -D_FORTIFY_SOURCE=2 -march=armv7-a -mthumb -Wformat -Werror=format-security  -fvisibility=hidden -fno-omit-frame-pointer -Wredundant-decls -fsigned-char -Wimplicit-function-declaration -fvisibility=hidden -fno-limit-debug-info \"",
  "#define WINPR_COMPILER_ID \"Clang\"",
  "#define WINPR_COMPILER_VERSION \"21.0.0\"",
  "#define WINPR_TARGET_ARCH \"ARM\"",
  "#define WINPR_BUILD_CONFIG \"\"",
  "#define WINPR_BUILD_TYPE \"Debug\"",
  "",
  "#endif /* WINPR_BUILD_FLAGS_H */"
]

/-! ## The preprocessor's reading of a header -/

/-- Horizontal white space inside a line. -/
def isBlank (c : Char) : Bool := c = ' ' || c = '\t'

/-- Characters of a C identifier. -/
def isIdentChar (c : Char) : Bool := c.isAlphanum || c = '_'

/-- Remove trailing white space. -/
def trimRight (cs : List Char) : List Char :=
  (cs.reverse.dropWhile isBlank).reverse

/-- The directives that occur in the two headers; any other line is kept as
`other`. -/
inductive Directive where
  | ifndef (name : String)
  | define (name : String) (body : String)
  | endif
  | blank
  | other (text : String)
  deriving DecidableEq, Repr

/-- Classify one line: optional white space, `#`, optional white space, the
directive name, then its arguments.  For `#define` the macro name is the
identifier that follows and the replacement text is the rest of the line with
the surrounding white space removed. -/
def parseLine (line : String) : Directive :=
  match line.data.dropWhile isBlank with
  | [] => .blank
  | c :: rest =>
    if c = '#' then
      let rest := rest.dropWhile isBlank
      let kw := String.mk (rest.takeWhile isIdentChar)
      let args := (rest.dropWhile isIdentChar).dropWhile isBlank
      let name := String.mk (args.takeWhile isIdentChar)
      if kw = "define" then
        .define name (String.mk (trimRight ((args.dropWhile isIdentChar).dropWhile isBlank)))
      else if kw = "ifndef" then .ifndef name
      else if kw = "endif" then .endif
      else .other line
    else .other line

/-- Macro environment: the definitions made so far, oldest first, each with its
replacement text. -/
abbrev Env := List (String × String)

/-- Preprocessor state: the environment and the number of open conditional
groups that are being skipped (0 when lines are live). -/
structure State where
  env : Env
  skipping : Nat
  deriving DecidableEq, Repr

/-- Run one directive.  A live `#ifndef X` starts skipping when `X` is already
defined; while skipping, nested conditionals are counted and definitions are
ignored; a live `#define` records the macro. -/
def step (s : State) : Directive → State
  | .ifndef name =>
    if s.skipping ≠ 0 then { s with skipping := s.skipping + 1 }
    else if (s.env.lookup name).isSome then { s with skipping := 1 }
    else s
  | .endif => { s with skipping := s.skipping - 1 }
  | .define name body =>
    if s.skipping ≠ 0 then s else { s with env := s.env ++ [(name, body)] }
  | .blank => s
  | .other _ => s

/-- Run all lines of a header from a given state. -/
def run (s : State) (header : List String) : State :=
  header.foldl (fun st line => step st (parseLine line)) s

/-- The macros a header defines when it is included into an empty
environment. -/
def defines (header : List String) : Env :=
  (run ⟨[], 0⟩ header).env

/-- Names of the macros a header defines, in order of definition. -/
def definedNames (header : List String) : List String :=
  (defines header).map Prod.fst

/-- Content of a replacement text that is one plain string literal (no escape
sequences, no embedded quotes); `none` for any other replacement text. -/
def stringLiteral (body : String) : Option String :=
  match body.data with
  | [] => none
  | c :: rest =>
    match rest.reverse with
    | [] => none
    | d :: inner =>
      if c = Char.ofNat 34 ∧ d = Char.ofNat 34
          ∧ inner.all (fun x => x != Char.ofNat 34 && x != Char.ofNat 92) then
        some (String.mk inner.reverse)
      else none

/-- Value of a string-valued macro of a header: the content of the string
literal it expands to. -/
def stringMacro (header : List String) (name : String) : Option String :=
  ((defines header).lookup name).bind stringLiteral

/-- All string-valued macros of a header with their values, in order of
definition. -/
def stringMacros (header : List String) : List (String × String) :=
  (defines header).filterMap fun kv => (stringLiteral kv.2).map fun v => (kv.1, v)

/-! ## The macros by name -/

def WINPR_DATA_PATH : Option String := stringMacro build_config_h "WINPR_DATA_PATH"
def WINPR_KEYMAP_PATH : Option String := stringMacro build_config_h "WINPR_KEYMAP_PATH"
def WINPR_PLUGIN_PATH : Option String := stringMacro build_config_h "WINPR_PLUGIN_PATH"
def WINPR_INSTALL_PREFIX : Option String := stringMacro build_config_h "WINPR_INSTALL_PREFIX"
def WINPR_INSTALL_SYSCONFDIR : Option String :=
  stringMacro build_config_h "WINPR_INSTALL_SYSCONFDIR"
def WINPR_LIBRARY_PATH : Option String := stringMacro build_config_h "WINPR_LIBRARY_PATH"
def WINPR_ADDIN_PATH : Option String := stringMacro build_config_h "WINPR_ADDIN_PATH"
def WINPR_SHARED_LIBRARY_SUFFIX : Option String :=
  stringMacro build_config_h "WINPR_SHARED_LIBRARY_SUFFIX"
def WINPR_SHARED_LIBRARY_PREFIX : Option String :=
  stringMacro build_config_h "WINPR_SHARED_LIBRARY_PREFIX"
def WINPR_VENDOR_STRING : Option String := stringMacro build_config_h "WINPR_VENDOR_STRING"
def WINPR_PRODUCT_STRING : Option String := stringMacro build_config_h "WINPR_PRODUCT_STRING"
def WINPR_PROXY_PLUGINDIR : Option String := stringMacro build_config_h "WINPR_PROXY_PLUGINDIR"

def WINPR_CFLAGS : Option String := stringMacro buildflags_h "WINPR_CFLAGS"
def WINPR_COMPILER_ID : Option String := stringMacro buildflags_h "WINPR_COMPILER_ID"
def WINPR_COMPILER_VERSION : Option String := stringMacro buildflags_h "WINPR_COMPILER_VERSION"
def WINPR_TARGET_ARCH : Option String := stringMacro buildflags_h "WINPR_TARGET_ARCH"
def WINPR_BUILD_CONFIG : Option String := stringMacro buildflags_h "WINPR_BUILD_CONFIG"
def WINPR_BUILD_TYPE : Option String := stringMacro buildflags_h "WINPR_BUILD_TYPE"

/-! ## Notions used to state the properties -/

/-- A path is absolute when its first character is `/`. -/
def isAbsolute (p : String) : Bool :=
  match p.data with
  | [] => false
  | c :: _ => c = '/'

/-- Whether `sub` occurs as a contiguous run inside the list. -/
def hasInfix (sub : List Char) : List Char → Bool
  | [] => sub.isEmpty
  | c :: cs => sub.isPrefixOf (c :: cs) || hasInfix sub cs

/-- Whether the string `s` contains the string `sub`. -/
def containsStr (s sub : String) : Bool := hasInfix sub.data s.data

/-- Split a list of characters at every occurrence of `sep`; `n` separators
give `n + 1` pieces, empty pieces included. -/
def splitAt (sep : Char) : List Char → List (List Char)
  | [] => [[]]
  | c :: cs =>
    if c = sep then [] :: splitAt sep cs
    else
      match splitAt sep cs with
      | [] => [[c]]
      | piece :: pieces => (c :: piece) :: pieces

/-- The pieces of a string between occurrences of `sep`. -/
def splitOnChar (sep : Char) (s : String) : List String :=
  (splitAt sep s.data).map String.mk

/-- The flag string split on spaces. -/
def flagTokens (flags : String) : List String := splitOnChar ' ' flags

/-- Last component of a `/`-separated path. -/
def lastComponent (path : String) : Option String :=
  (splitOnChar '/' path).getLast?

/-- The component that follows `jniLibs` in a list of path components: the
ABI-named directory. -/
def afterJniLibs : List String → Option String
  | [] => none
  | [_] => none
  | c :: d :: rest => if c = "jniLibs" then some d else afterJniLibs (d :: rest)

/-- The ABI-named directory a header of the repository lives in. -/
def abiDirectory (path : String) : Option String :=
  afterJniLibs (splitOnChar '/' path)

/-- The path-valued entries of `build-config.h`. -/
def pathKeys : List String :=
  ["WINPR_DATA_PATH", "WINPR_KEYMAP_PATH", "WINPR_PLUGIN_PATH", "WINPR_LIBRARY_PATH",
   "WINPR_ADDIN_PATH", "WINPR_PROXY_PLUGINDIR", "WINPR_INSTALL_PREFIX",
   "WINPR_INSTALL_SYSCONFDIR"]

/-- The entries of `build-config.h` that may not be empty. -/
def requiredConfigKeys : List String :=
  ["WINPR_INSTALL_PREFIX", "WINPR_INSTALL_SYSCONFDIR", "WINPR_SHARED_LIBRARY_PREFIX",
   "WINPR_SHARED_LIBRARY_SUFFIX", "WINPR_VENDOR_STRING", "WINPR_PRODUCT_STRING"]

/-- The entries of `buildflags.h` that may not be empty. -/
def requiredFlagsKeys : List String :=
  ["WINPR_COMPILER_ID", "WINPR_COMPILER_VERSION", "WINPR_TARGET_ARCH", "WINPR_BUILD_TYPE"]

/-- The entries that may be empty: the six auxiliary paths, the compiler flags
and the named build configuration. -/
def emptyAllowedKeys : List String :=
  ["WINPR_DATA_PATH", "WINPR_KEYMAP_PATH", "WINPR_PLUGIN_PATH", "WINPR_LIBRARY_PATH",
   "WINPR_ADDIN_PATH", "WINPR_PROXY_PLUGINDIR", "WINPR_CFLAGS", "WINPR_BUILD_CONFIG"]

/-- The keys of the artifact format, with the `WINPR_` prefix of the headers. -/
def artifactKeys : List String :=
  ["WINPR_DATA_PATH", "WINPR_KEYMAP_PATH", "WINPR_PLUGIN_PATH", "WINPR_LIBRARY_PATH",
   "WINPR_ADDIN_PATH", "WINPR_PROXY_PLUGINDIR", "WINPR_INSTALL_PREFIX",
   "WINPR_INSTALL_SYSCONFDIR", "WINPR_SHARED_LIBRARY_PREFIX", "WINPR_SHARED_LIBRARY_SUFFIX",
   "WINPR_VENDOR_STRING", "WINPR_PRODUCT_STRING", "WINPR_CFLAGS", "WINPR_COMPILER_ID",
   "WINPR_COMPILER_VERSION", "WINPR_TARGET_ARCH", "WINPR_BUILD_CONFIG", "WINPR_BUILD_TYPE"]

/-- The include guards of the two headers. -/
def includeGuards : List String := ["WINPR_BUILD_CONFIG_H", "WINPR_BUILD_FLAGS_H"]

/-- The CPU-family names. -/
def cpuFamilies : List String := ["ARM", "ARM64", "x86", "x86_64"]

/-- Every macro defined by either header, `build-config.h` first. -/
def allDefinedNames : List String :=
  definedNames build_config_h ++ definedNames buildflags_h

/-! ## What the preprocessor sees in each header -/

set_option maxRecDepth 100000 in
/-- The macro environment after `build-config.h`. -/
theorem defines_build_config_h :
    defines build_config_h =
      [("WINPR_BUILD_CONFIG_H", ""),
       ("WINPR_DATA_PATH", "\"\""),
       ("WINPR_KEYMAP_PATH", "\"\""),
       ("WINPR_PLUGIN_PATH", "\"\""),
       ("WINPR_INSTALL_PREFIX", "\"/mnt/d/wyxj/project/mstsc/FreeRDP/client/Android/Studio/freeRDPCore/src/main/jniLibs/arm64-v8a\""),
       ("WINPR_INSTALL_SYSCONFDIR", "\"/mnt/d/wyxj/project/mstsc/FreeRDP/client/Android/Studio/freeRDPCore/src/main/jniLibs/arm64-v8a/etc\""),
       ("WINPR_LIBRARY_PATH", "\"\""),
       ("WINPR_ADDIN_PATH", "\"\""),
       ("WINPR_SHARED_LIBRARY_SUFFIX", "\".so\""),
       ("WINPR_SHARED_LIBRARY_PREFIX", "\"lib\""),
       ("WINPR_VENDOR_STRING", "\"FreeRDP\""),
       ("WINPR_PRODUCT_STRING", "\"FreeRDP\""),
       ("WINPR_PROXY_PLUGINDIR", "\"\"")] := by
  decide

set_option maxRecDepth 100000 in
/-- The macro environment after `buildflags.h`. -/
theorem defines_buildflags_h :
    defines buildflags_h =
      [("WINPR_BUILD_FLAGS_H", ""),
       ("WINPR_CFLAGS", "\"-g -DANDROID -fdata-sections -ffunction-sections -funwind-tables -fstack-protector-strong -no-canonical-prefixes -D_FORTIFY_SOURCE=2 -march=armv7-a -mthumb -Wformat -Werror=format-security  -fvisibility=hidden -fno-omit-frame-pointer -Wredundant-decls -fsigned-char -Wimplicit-function-declaration -fvisibility=hidden -fno-limit-debug-info \""),
       ("WINPR_COMPILER_ID", "\"Clang\""),
       ("WINPR_COMPILER_VERSION", "\"21.0.0\""),
       ("WINPR_TARGET_ARCH", "\"ARM\""),
       ("WINPR_BUILD_CONFIG", "\"\""),
       ("WINPR_BUILD_TYPE", "\"Debug\"")] := by
  decide

set_option maxRecDepth 100000 in
/-- Including `build-config.h` a second time changes nothing: the guard is
defined, so the whole body is skipped and the conditional is closed again. -/
theorem build_config_h_guarded :
    run (run ⟨[], 0⟩ build_config_h) build_config_h = run ⟨[], 0⟩ build_config_h := by
  decide

set_option maxRecDepth 100000 in
/-- Including `buildflags.h` a second time changes nothing. -/
theorem buildflags_h_guarded :
    run (run ⟨[], 0⟩ buildflags_h) buildflags_h = run ⟨[], 0⟩ buildflags_h := by
  decide

set_option maxRecDepth 100000 in
/-- Apart from the include guards every macro of the two headers is
string-valued, so `stringMacros` leaves out nothing but the guards. -/
theorem stringMacros_names :
    (stringMacros build_config_h).map Prod.fst =
      (definedNames build_config_h).filter (fun k => k ∉ includeGuards) ∧
    (stringMacros buildflags_h).map Prod.fst =
      (definedNames buildflags_h).filter (fun k => k ∉ includeGuards) := by
  decide

/-! ## Properties of the artifacts -/

set_option maxRecDepth 100000 in
/-- C1: in `build-config.h` of arm64-v8a, `WINPR_INSTALL_SYSCONFDIR` is the value
of `WINPR_INSTALL_PREFIX` followed by `/etc`, character for character. -/
theorem sysconfdir_is_install_root_etc :
    ∃ p : String, WINPR_INSTALL_PREFIX = some p ∧
      WINPR_INSTALL_SYSCONFDIR = some (p ++ "/etc") :=
  ⟨"/mnt/d/wyxj/project/mstsc/FreeRDP/client/Android/Studio/freeRDPCore/src/main/jniLibs/arm64-v8a",
    by decide, by decide⟩

set_option maxRecDepth 100000 in
/-- C2: every path-valued entry of `build-config.h` is defined as a string that
is either empty or absolute (its first character is `/`); none is relative. -/
theorem path_entries_empty_or_absolute :
    ∀ k ∈ pathKeys, ∃ v : String,
      stringMacro build_config_h k = some v ∧ (v = "" ∨ isAbsolute v = true) := by
  have h : ∀ k ∈ pathKeys,
      (stringMacro build_config_h k).any (fun v => decide (v = "") || isAbsolute v) = true := by
    decide
  intro k hk
  have hk2 := h k hk
  cases hv : stringMacro build_config_h k with
  | none => simp [hv] at hk2
  | some v =>
    refine ⟨v, rfl, ?_⟩
    simpa [hv] using hk2

set_option maxRecDepth 100000 in
/-- Instance of C2 at `WINPR_INSTALL_SYSCONFDIR`. -/
theorem path_entries_empty_or_absolute_witness :
    "WINPR_INSTALL_SYSCONFDIR" ∈ pathKeys ∧
      ∃ v : String, stringMacro build_config_h "WINPR_INSTALL_SYSCONFDIR" = some v ∧
        (v = "" ∨ isAbsolute v = true) :=
  ⟨by decide, path_entries_empty_or_absolute "WINPR_INSTALL_SYSCONFDIR" (by decide)⟩

set_option maxRecDepth 100000 in
/-- C3: every entry that may not be empty has a non-empty value: the six of
`build-config.h` and the four of `buildflags.h`; and every string-valued macro
of either header whose value is empty is one of the entries that may be empty
(the six auxiliary paths, `WINPR_CFLAGS`, `WINPR_BUILD_CONFIG`). -/
theorem required_entries_nonempty :
    (∀ k ∈ requiredConfigKeys, ∃ v : String,
      stringMacro build_config_h k = some v ∧ v ≠ "") ∧
    (∀ k ∈ requiredFlagsKeys, ∃ v : String,
      stringMacro buildflags_h k = some v ∧ v ≠ "") ∧
    (∀ kv ∈ stringMacros build_config_h ++ stringMacros buildflags_h,
      kv.2 = "" → kv.1 ∈ emptyAllowedKeys) := by
  have hc : ∀ k ∈ requiredConfigKeys,
      (stringMacro build_config_h k).any (fun v => decide (v ≠ "")) = true := by
    decide
  have hf : ∀ k ∈ requiredFlagsKeys,
      (stringMacro buildflags_h k).any (fun v => decide (v ≠ "")) = true := by
    decide
  refine ⟨?_, ?_, by decide⟩
  · intro k hk
    have hk2 := hc k hk
    cases hv : stringMacro build_config_h k with
    | none => simp [hv] at hk2
    | some v =>
      refine ⟨v, rfl, ?_⟩
      simpa [hv] using hk2
  · intro k hk
    have hk2 := hf k hk
    cases hv : stringMacro buildflags_h k with
    | none => simp [hv] at hk2
    | some v =>
      refine ⟨v, rfl, ?_⟩
      simpa [hv] using hk2

set_option maxRecDepth 100000 in
/-- C4: the naming convention of the arm64-v8a header is the Android/Linux one:
`WINPR_SHARED_LIBRARY_PREFIX` is `lib`, `WINPR_SHARED_LIBRARY_SUFFIX` is `.so`,
and for every base name `n` the file name composed of the two macros' values
around `n` is `lib` ++ `n` ++ `.so`. -/
theorem shared_library_naming :
    WINPR_SHARED_LIBRARY_PREFIX = some "lib" ∧
    WINPR_SHARED_LIBRARY_SUFFIX = some ".so" ∧
    ∃ p s : String, WINPR_SHARED_LIBRARY_PREFIX = some p ∧
      WINPR_SHARED_LIBRARY_SUFFIX = some s ∧
      ∀ n : String, p ++ n ++ s = "lib" ++ n ++ ".so" :=
  ⟨by decide, by decide, "lib", ".so", by decide, by decide, fun _ => rfl⟩

set_option maxRecDepth 100000 in
/-- C5: in the arm64-v8a header `WINPR_LIBRARY_PATH`, `WINPR_ADDIN_PATH` and
`WINPR_PLUGIN_PATH` are the empty string, while `WINPR_INSTALL_PREFIX` is a
non-empty string. -/
theorem auxiliary_paths_unset :
    WINPR_LIBRARY_PATH = some "" ∧ WINPR_ADDIN_PATH = some "" ∧
    WINPR_PLUGIN_PATH = some "" ∧
    ∃ p : String, WINPR_INSTALL_PREFIX = some p ∧ p ≠ "" :=
  ⟨by decide, by decide, by decide,
    "/mnt/d/wyxj/project/mstsc/FreeRDP/client/Android/Studio/freeRDPCore/src/main/jniLibs/arm64-v8a",
    by decide, by decide⟩

set_option maxRecDepth 100000 in
/-- C6: the artifact-format table has 18 distinct keys; each of them is defined
exactly once across `build-config.h` and `buildflags.h`; no macro is defined in
both headers; and every macro either header defines is one of the 18 keys or
one of the two include guards. -/
theorem artifact_keys_defined_exactly_once :
    artifactKeys.length = 18 ∧ artifactKeys.Nodup ∧
    (∀ k ∈ artifactKeys, allDefinedNames.count k = 1) ∧
    (∀ k ∈ definedNames build_config_h, k ∉ definedNames buildflags_h) ∧
    (∀ k ∈ allDefinedNames, k ∈ artifactKeys ∨ k ∈ includeGuards) := by
  refine ⟨by decide, by decide, by decide, by decide, by decide⟩

set_option maxRecDepth 100000 in
/-- C7: the header under the `armeabi-v7a` directory defines
`WINPR_TARGET_ARCH` as `ARM`, which is one of the four CPU-family names and is
not `ARM64`. -/
theorem target_arch_is_arm :
    abiDirectory buildflags_h_path = some "armeabi-v7a" ∧
    ∃ a : String, WINPR_TARGET_ARCH = some a ∧ a ∈ cpuFamilies ∧
      a = "ARM" ∧ a ≠ "ARM64" :=
  ⟨by decide, "ARM", by decide, by decide, rfl, by decide⟩

set_option maxRecDepth 100000 in
/-- C8: the header under `arm64-v8a` has an install prefix whose last path
component is `arm64-v8a`, the directory the header lives in, and no macro of it
has a replacement text containing `armeabi-v7a` or `armv7`; the header under
`armeabi-v7a` has `-march=armv7-a` among the flags of `WINPR_CFLAGS`, and no
macro of it has a replacement text containing `arm64`, `aarch64` or `armv8`. -/
theorem no_cross_abi_contamination :
    (abiDirectory build_config_h_path = some "arm64-v8a" ∧
     WINPR_INSTALL_PREFIX.bind lastComponent = some "arm64-v8a" ∧
     ∀ kv ∈ defines build_config_h,
       containsStr kv.2 "armeabi-v7a" = false ∧ containsStr kv.2 "armv7" = false) ∧
    (abiDirectory buildflags_h_path = some "armeabi-v7a" ∧
     (∃ f : String, WINPR_CFLAGS = some f ∧ "-march=armv7-a" ∈ flagTokens f) ∧
     ∀ kv ∈ defines buildflags_h,
       containsStr kv.2 "arm64" = false ∧ containsStr kv.2 "aarch64" = false ∧
       containsStr kv.2 "armv8" = false) := by
  refine ⟨⟨by decide, by decide, by decide⟩, by decide, ?_, by decide⟩
  exact ⟨(WINPR_CFLAGS.getD ""), by decide, by decide⟩

set_option maxRecDepth 100000 in
/-- C10: `WINPR_CFLAGS` of the armeabi-v7a header is an un-normalised flag
string: split on spaces it contains `-fvisibility=hidden` twice, so neither
its token list nor the list of its non-empty tokens is duplicate-free; it
contains two consecutive spaces; and its last character is a space. -/
theorem cflags_kept_verbatim :
    ∃ f : String, WINPR_CFLAGS = some f ∧
      (flagTokens f).count "-fvisibility=hidden" = 2 ∧
      ¬ (flagTokens f).Nodup ∧
      ¬ ((flagTokens f).filter (fun t => t ≠ "")).Nodup ∧
      containsStr f "  " = true ∧
      f.data.getLast? = some ' ' := by
  exact ⟨(WINPR_CFLAGS.getD ""), by decide, by decide, by decide, by decide, by decide,
    by decide⟩

end Winpr
